import Mathlib

/-!
Shallow embedding of the linuxspi programmer driver (src/avrdude/linuxspi.c).

External effects (the spidev ioctl, sysfs file opens/writes, usleep) are
modelled by explicit oracles passed as function arguments and by event
traces returned alongside each function's result, so the control flow of
each C function is reproduced exactly over those oracles.
-/

/-- Modelled from the spec: the constant PIN_INVERSE comes from the
repository's pindefs.h, which is not among the provided sources; the spec
describes it as a reserved high bit of the numeric pin id, i.e. the top
bit of a 32-bit unsigned int. -/
def PIN_INVERSE : Nat := 2 ^ 31

/-- The four sysfs GPIO operations of the LINUXSPI_GPIO_OP enum. -/
inductive GpioOp
  | direction
  | valueOp
  | exportOp
  | unexportOp

/-- The sysfs path built by linuxspi_gpio_op_wr for an operation: the
inversion flag is removed first (gpio &= ~PIN_INVERSE, i.e. the low 31
bits are kept), then the path is chosen by the op. -/
def gpio_path (op : GpioOp) (gpio : Nat) : String :=
  let g := gpio &&& 0x7FFFFFFF
  match op with
  | GpioOp.direction => "/sys/class/gpio/gpio" ++ toString g ++ "/direction"
  | GpioOp.exportOp => "/sys/class/gpio/export"
  | GpioOp.unexportOp => "/sys/class/gpio/unexport"
  | GpioOp.valueOp => "/sys/class/gpio/gpio" ++ toString g ++ "/value"

/-- Rendering of a 32-bit unsigned value through printf %d, which
reinterprets it as a signed int, as snprintf does for the export and
unexport pin-number contents. -/
def sprintf_d (n : Nat) : String :=
  toString (if n < 2 ^ 31 then (n : Int) else (n : Int) - 2 ^ 32)

/-- Observable events of the GPIO and close paths: a usleep call and a
successful write of a content string to a sysfs file. -/
inductive Ev
  | sleepUs (usec : Nat)
  | fileWrite (path : String) (content : String)
deriving DecidableEq

/-- The fopen retry loop of linuxspi_gpio_op_wr: one fopen attempt for
index i; on failure, while retries remain, sleep 20000 us and try again.
Returns (opened, number of fopen calls made, sleep events). -/
def open_retry (ok : Nat → Bool) (i fuel : Nat) : Bool × Nat × List Ev :=
  if ok i then (true, i + 1, [])
  else
    match fuel with
    | 0 => (false, i + 1, [])
    | f + 1 =>
      let r := open_retry ok (i + 1) f
      (r.1, r.2.1, Ev.sleepUs 20000 :: r.2.2)

/-- Result of linuxspi_gpio_op_wr: the returned code, the number of fopen
calls made, and the event trace. -/
structure GpioWrOut where
  result : Int
  fopenCalls : Nat
  events : List Ev

/-- linuxspi_gpio_op_wr: builds the sysfs path (inversion flag stripped),
opens it with the bounded retry loop (initial attempt plus at most 100
retries, each preceded by a 20000 us sleep), then writes val once.
fopenOk tells whether the n-th fopen attempt succeeds; writeOk whether
the single fprintf succeeds. -/
def linuxspi_gpio_op_wr (fopenOk : Nat → Bool) (writeOk : Bool)
    (op : GpioOp) (gpio : Nat) (val : String) : GpioWrOut :=
  let r := open_retry fopenOk 0 100
  if !r.1 then { result := -1, fopenCalls := r.2.1, events := r.2.2 }
  else if writeOk then
    { result := 0, fopenCalls := r.2.1
    , events := r.2.2 ++ [Ev.fileWrite (gpio_path op gpio) val] }
  else { result := -1, fopenCalls := r.2.1, events := r.2.2 }

/-- Oracle under which every fopen attempt succeeds. -/
def allOk : Nat → Bool := fun _ => true

/-- Oracle under which every fopen attempt fails. -/
def allFail : Nat → Bool := fun _ => false

/-- The spi_ioc_transfer request fields set by linuxspi_spi_duplex. -/
structure SpiXfer where
  len : Nat
  delay_usecs : Nat
  speed_hz : Nat
  bits_per_word : Nat

/-- Result of linuxspi_spi_duplex: the returned code, whether the
short-transfer diagnostic was printed, and the transfer request built. -/
structure DuplexOut where
  result : Int
  shortLog : Bool
  tr : SpiXfer

/-- linuxspi_spi_duplex: builds the transfer request (delay 1 us, speed
defaulting to 400000 when the configured baudrate is 0, 8 bits per word),
issues the ioctl whose return value is the oracle kret, prints the error
diagnostic when kret differs from len, and returns -1 only when kret is
-1, otherwise 0. -/
def linuxspi_spi_duplex (baudrate : Nat) (len : Nat) (kret : Int) : DuplexOut :=
  { tr :=
      { len := len
      , delay_usecs := 1
      , speed_hz := if baudrate = 0 then 400000 else baudrate
      , bits_per_word := 8 }
  , shortLog := kret != (len : Int)
  , result := if kret = -1 then -1 else 0 }

/-- linuxspi_cmd: a fixed 4-byte full-duplex transfer. -/
def linuxspi_cmd (baudrate : Nat) (kret : Int) : DuplexOut :=
  linuxspi_spi_duplex baudrate 4 kret

/-- Result of linuxspi_program_enable: the returned code and the number
of SPI transfers issued. -/
structure PgmEnOut where
  result : Int
  transfers : Nat

/-- linuxspi_program_enable: returns -1 when the part has no
AVR_OP_PGM_ENABLE encoding, without any transfer; otherwise sends the
frame cmd (as produced by avr_set_bits, abstracted as an argument) once
and compares byte res 2 of the response with byte cmd 1: mismatch gives
-2, match gives 0. -/
def linuxspi_program_enable (opDefined : Bool) (cmd res : Fin 4 → Nat) : PgmEnOut :=
  if !opDefined then { result := -1, transfers := 0 }
  else if res 2 ≠ cmd 1 then { result := -2, transfers := 1 }
  else { result := 0, transfers := 1 }

/-- The do-while retry loop of linuxspi_init: pe i is the result of
the i-th program_enable call (0-indexed); the loop stops at once on 0 or
-1 and otherwise repeats while the post-increment check tries++ < 65
passes. Returns (final result, number of attempts made). -/
def init_loop_aux (pe : Nat → Int) (i fuel : Nat) : Int × Nat :=
  if pe i = 0 ∨ pe i = -1 then (pe i, i + 1)
  else
    match fuel with
    | 0 => (pe i, i + 1)
    | f + 1 => init_loop_aux pe (i + 1) f

/-- Result of linuxspi_init: the returned code, the number of
program_enable attempts made, and whether the AVR-device-not-responding
diagnostic was printed. -/
structure InitOut where
  result : Int
  attempts : Nat
  notResponding : Bool

/-- linuxspi_init: rejects TPI parts at once, otherwise runs the
program-enable retry loop (at most 66 attempts: the initial one and 65
retries) and prints the not-responding diagnostic when the final result
is nonzero. -/
def linuxspi_init (hasTPI : Bool) (pe : Nat → Int) : InitOut :=
  if hasTPI then { result := -1, attempts := 0, notResponding := false }
  else
    let r := init_loop_aux pe 0 65
    { result := r.1, attempts := r.2, notResponding := decide (r.1 ≠ 0) }

/-- Result of linuxspi_chip_erase: the returned code, the number of SPI
transfers issued directly by chip_erase, whether the
instruction-not-defined diagnostic was printed, the usleep duration if
one was performed, and whether the re-initialization was invoked. -/
structure EraseOut where
  result : Int
  transfers : Nat
  unsupportedMsg : Bool
  slept : Option Nat
  reInit : Bool

/-- linuxspi_chip_erase: returns -1 with a diagnostic and no transfer
when the part has no AVR_OP_CHIP_ERASE encoding; otherwise sends the
erase frame once, sleeps for the part's chip_erase_delay, re-runs
initialize (whose result, the oracle initResult, is discarded) and
returns 0. -/
def linuxspi_chip_erase (eraseDefined : Bool) (chip_erase_delay : Nat)
    (initResult : Int) : EraseOut :=
  if !eraseDefined then
    { result := -1, transfers := 0, unsupportedMsg := true
    , slept := none, reInit := false }
  else
    { result := 0, transfers := 1, unsupportedMsg := false
    , slept := some chip_erase_delay, reInit := true }

/-- Result of linuxspi_open: whether a fatal configuration error
terminated the process, the returned code, and the GPIO event trace. -/
structure OpenOut where
  fatal : Bool
  result : Int
  events : List Ev

/-- linuxspi_open: exits fatally on a missing port or an unassigned
(zero) RESET pin; returns -1 when the spidev device cannot be opened;
then exports the RESET pin, writing the pin number with the inversion
flag masked off, and configures direction with initial value in one
write: high when the pin carries the inversion flag, low otherwise. -/
def linuxspi_open (portValid : Bool) (pin : Nat) (spidevOk : Bool)
    (fopenExp : Nat → Bool) (wExp : Bool)
    (fopenDir : Nat → Bool) (wDir : Bool) : OpenOut :=
  if !portValid then { fatal := true, result := -1, events := [] }
  else if pin = 0 then { fatal := true, result := -1, events := [] }
  else if !spidevOk then { fatal := false, result := -1, events := [] }
  else
    let ex := linuxspi_gpio_op_wr fopenExp wExp GpioOp.exportOp pin
      (sprintf_d (pin &&& 0x7FFFFFFF))
    if ex.result < 0 then { fatal := false, result := -1, events := ex.events }
    else
      let dir := linuxspi_gpio_op_wr fopenDir wDir GpioOp.direction pin
        (if pin &&& PIN_INVERSE ≠ 0 then "high" else "low")
      if dir.result < 0 then
        { fatal := false, result := -1, events := ex.events ++ dir.events }
      else { fatal := false, result := 0, events := ex.events ++ dir.events }

/-- Teardown events of linuxspi_close: the close of the SPI handle and
the GPIO events of the two sysfs writes. -/
inductive CloseEv
  | closeSpi
  | gpioEv (e : Ev)
deriving DecidableEq

/-- linuxspi_close: closes the spidev handle, then sets the RESET pin
direction to in, then writes the unmasked pin number to unexport; the
results of the two GPIO operations are discarded, so every step runs
whatever the others do. -/
def linuxspi_close (pin : Nat) (fopenDir : Nat → Bool) (wDir : Bool)
    (fopenUn : Nat → Bool) (wUn : Bool) : List CloseEv :=
  CloseEv.closeSpi ::
    ((linuxspi_gpio_op_wr fopenDir wDir GpioOp.direction pin "in").events.map
        CloseEv.gpioEv ++
      (linuxspi_gpio_op_wr fopenUn wUn GpioOp.unexportOp pin
          (sprintf_d pin)).events.map CloseEv.gpioEv)

/-! ### Helper lemmas -/

theorem lor_high_land_low (p : Nat) :
    (p ||| 2147483648) &&& 2147483647 = p &&& 2147483647 := by
  have h31 : (2147483647 : Nat) = 2 ^ 31 - 1 := by norm_num
  have h32 : (2147483648 : Nat) = 2 ^ 31 := by norm_num
  apply Nat.eq_of_testBit_eq
  intro i
  rw [h31, h32, Nat.testBit_land, Nat.testBit_land, Nat.testBit_lor,
    Nat.testBit_two_pow_sub_one]
  by_cases hi : i < 31
  · rw [Nat.testBit_two_pow_of_ne (by omega)]
    simp
  · simp [hi]

theorem open_retry_all_fail (ok : Nat → Bool) (h : ∀ i, ok i = false) :
    ∀ (fuel i : Nat),
      open_retry ok i fuel =
        (false, i + fuel + 1, List.replicate fuel (Ev.sleepUs 20000)) := by
  intro fuel
  induction fuel with
  | zero =>
    intro i
    rw [open_retry]
    simp [h]
  | succ f ih =>
    intro i
    rw [open_retry]
    simp only [h, Bool.false_eq_true, if_false, ih (i + 1), List.replicate_succ]
    have he : i + 1 + f + 1 = i + (f + 1) + 1 := by omega
    rw [he]

theorem init_loop_stop (pe : Nat → Int) :
    ∀ (j i fuel : Nat), j ≤ fuel →
      (∀ m, m < j → ¬(pe (i + m) = 0 ∨ pe (i + m) = -1)) →
      (pe (i + j) = 0 ∨ pe (i + j) = -1) →
      init_loop_aux pe i fuel = (pe (i + j), i + j + 1) := by
  intro j
  induction j with
  | zero =>
    intro i fuel _ _ hstop
    rw [init_loop_aux.eq_def]
    simp only [Nat.add_zero] at hstop ⊢
    rw [if_pos hstop]
  | succ n ih =>
    intro i fuel hle hpre hstop
    have h0 : ¬(pe i = 0 ∨ pe i = -1) := by
      have := hpre 0 (Nat.succ_pos n)
      simpa using this
    cases fuel with
    | zero => omega
    | succ f =>
      rw [init_loop_aux.eq_def, if_neg h0]
      have harg : ∀ m, m < n → ¬(pe (i + 1 + m) = 0 ∨ pe (i + 1 + m) = -1) := by
        intro m hm
        have := hpre (m + 1) (by omega)
        have he : i + (m + 1) = i + 1 + m := by omega
        rw [he] at this
        exact this
      have hstop2 : pe (i + 1 + n) = 0 ∨ pe (i + 1 + n) = -1 := by
        have he : i + (n + 1) = i + 1 + n := by omega
        rw [he] at hstop
        exact hstop
      have := ih (i + 1) f (by omega) harg hstop2
      show init_loop_aux pe (i + 1) f = _
      rw [this]
      have he : i + 1 + n = i + (n + 1) := by omega
      rw [he]

theorem init_loop_all (pe : Nat → Int)
    (h : ∀ m, ¬(pe m = 0 ∨ pe m = -1)) :
    ∀ (fuel i : Nat),
      init_loop_aux pe i fuel = (pe (i + fuel), i + fuel + 1) := by
  intro fuel
  induction fuel with
  | zero =>
    intro i
    rw [init_loop_aux.eq_def, if_neg (h i)]
    simp
  | succ f ih =>
    intro i
    rw [init_loop_aux.eq_def, if_neg (h i)]
    have := ih (i + 1)
    show init_loop_aux pe (i + 1) f = _
    rw [this]
    have he : i + 1 + f = i + (f + 1) := by omega
    rw [he]

/-! ### Claim theorems -/

/-- C1: in the retry loop of linuxspi_init, a program-enable oracle
returning the ambiguous code -2 for the first k calls (k < 65) and 0
thereafter makes initialize succeed after exactly k+1 attempts; an oracle
always returning -2 exhausts exactly 66 attempts and triggers the
device-not-responding report; and any first result of 0 or -1 at attempt
j+1 (j at most 65) stops the loop immediately with that result. -/
theorem C1_program_enable_retry_loop
    (k : Nat) (hk : k < 65) (pe pe2 f : Nat → Int)
    (hpe : ∀ i, pe i = if i < k then -2 else 0)
    (hpe2 : ∀ i, pe2 i = -2)
    (j : Nat) (hj : j ≤ 65) (hstop : f j = 0 ∨ f j = -1)
    (hpre : ∀ i, i < j → ¬(f i = 0 ∨ f i = -1)) :
    ((linuxspi_init false pe).result = 0
        ∧ (linuxspi_init false pe).attempts = k + 1)
    ∧ ((linuxspi_init false pe2).attempts = 66
        ∧ (linuxspi_init false pe2).notResponding = true)
    ∧ ((linuxspi_init false f).result = f j
        ∧ (linuxspi_init false f).attempts = j + 1) := by
  have hpek : pe k = 0 := by
    rw [hpe k, if_neg (Nat.lt_irrefl k)]
  have h1 : init_loop_aux pe 0 65 = (pe (0 + k), 0 + k + 1) := by
    apply init_loop_stop pe k 0 65 (by omega)
    · intro m hm
      rw [Nat.zero_add, hpe m, if_pos hm]
      decide
    · exact Or.inl (by rw [Nat.zero_add]; exact hpek)
  have h2 : init_loop_aux pe2 0 65 = (pe2 (0 + 65), 0 + 65 + 1) := by
    apply init_loop_all pe2
    intro m
    rw [hpe2 m]
    decide
  have h3 : init_loop_aux f 0 65 = (f (0 + j), 0 + j + 1) := by
    apply init_loop_stop f j 0 65 hj
    · intro m hm
      rw [Nat.zero_add]
      exact hpre m hm
    · rw [Nat.zero_add]
      exact hstop
  refine ⟨⟨?_, ?_⟩, ⟨?_, ?_⟩, ?_, ?_⟩
  · simp [linuxspi_init, h1, hpek]
  · simp [linuxspi_init, h1]
  · simp [linuxspi_init, h2]
  · simp [linuxspi_init, h2, hpe2 (0 + 65)]
  · simp [linuxspi_init, h3]
  · simp [linuxspi_init, h3]

/-- C1 witness: concrete instances of the three parts of the retry-loop
theorem: three ambiguous results then success gives 4 attempts; always
ambiguous gives 66 attempts and the not-responding report; an immediate
hard failure stops after 1 attempt. -/
theorem C1_witness :
    ((linuxspi_init false (fun i => if i < 3 then -2 else 0)).result = 0
        ∧ (linuxspi_init false (fun i => if i < 3 then -2 else 0)).attempts
          = 3 + 1)
    ∧ ((linuxspi_init false (fun _ => -2)).attempts = 66
        ∧ (linuxspi_init false (fun _ => -2)).notResponding = true)
    ∧ ((linuxspi_init false (fun _ => -1)).result = -1
        ∧ (linuxspi_init false (fun _ => -1)).attempts = 0 + 1) :=
  C1_program_enable_retry_loop 3 (by decide)
    (fun i => if i < 3 then -2 else 0) (fun _ => -2) (fun _ => -1)
    (fun _ => rfl) (fun _ => rfl) 0 (by decide) (Or.inr rfl)
    (fun i hi => absurd hi (Nat.not_lt_zero i))

/-- C2 counterexample: at RESET pin 25 with all sysfs operations
succeeding, the teardown trace of linuxspi_close is not the claimed
order direction-to-input, then unexport, then close of the SPI handle:
the code closes the SPI handle first. -/
theorem C2_counterexample :
    linuxspi_close 25 allOk true allOk true ≠
      [CloseEv.gpioEv (Ev.fileWrite "/sys/class/gpio/gpio25/direction" "in"),
       CloseEv.gpioEv (Ev.fileWrite "/sys/class/gpio/unexport" "25"),
       CloseEv.closeSpi] := by decide

/-- C2 (amended): linuxspi_close always performs the three teardown
steps unconditionally, whatever each step's own outcome, but in the
order: close the SPI handle first, then set the RESET direction to
input, then unexport the pin; in particular, even when every fopen
attempt of the direction step fails, the unexport write still happens. -/
theorem C2_close_order_unconditional :
    (∀ (pin : Nat) (fd fu : Nat → Bool) (wd wu : Bool),
        linuxspi_close pin fd wd fu wu =
          CloseEv.closeSpi ::
            ((linuxspi_gpio_op_wr fd wd GpioOp.direction pin "in").events.map
                CloseEv.gpioEv ++
              (linuxspi_gpio_op_wr fu wu GpioOp.unexportOp pin
                  (sprintf_d pin)).events.map CloseEv.gpioEv))
    ∧ CloseEv.gpioEv (Ev.fileWrite "/sys/class/gpio/unexport" "25") ∈
        linuxspi_close 25 allFail true allOk true := by
  constructor
  · intro pin fd fu wd wu
    rfl
  · decide

/-- C3: evaluation of the SPI transfer primitive on a short transfer:
for a 4-byte request where the ioctl reports only 2 bytes moved, the
code prints the diagnostic yet returns 0 (success) to the caller, so a
short transfer is not reported as a failure; only an ioctl result of -1
yields the failure return -1. -/
theorem C3_short_transfer_evaluation :
    (linuxspi_spi_duplex 0 4 2).result = 0
    ∧ (linuxspi_spi_duplex 0 4 2).shortLog = true
    ∧ (linuxspi_spi_duplex 0 4 (-1)).result = -1
    ∧ (linuxspi_spi_duplex 0 4 (-1)).shortLog = true := by decide

/-- C4: evaluation at RESET pin 25 with the inversion bit set: open
writes "25" to export and direction "high"; close writes direction "in"
unconditionally but then writes the unmasked pin number, rendered by %d
as "-2147483623", to unexport, which differs from the "25" written on
export: the inversion bit is not stripped from the unexport content. -/
theorem C4_inverted_pin_evaluation :
    (linuxspi_open true (25 ||| PIN_INVERSE) true allOk true allOk true).events =
      [Ev.fileWrite "/sys/class/gpio/export" "25",
       Ev.fileWrite "/sys/class/gpio/gpio25/direction" "high"]
    ∧ linuxspi_close (25 ||| PIN_INVERSE) allOk true allOk true =
      [CloseEv.closeSpi,
       CloseEv.gpioEv (Ev.fileWrite "/sys/class/gpio/gpio25/direction" "in"),
       CloseEv.gpioEv (Ev.fileWrite "/sys/class/gpio/unexport" "-2147483623")]
    ∧ ("-2147483623" : String) ≠ "25" := by decide

/-- C5: for every GPIO operation and pin number, the sysfs path built
for the pin with the inversion bit set equals the path built for the
bare pin: the inversion bit is stripped before the path is assembled. -/
theorem C5_inversion_bit_never_changes_path (op : GpioOp) (p : Nat) :
    gpio_path op (p ||| PIN_INVERSE) = gpio_path op p := by
  cases op <;> simp [gpio_path, PIN_INVERSE, lor_high_land_low]

/-- C6: when every fopen attempt on the sysfs control file fails, the
GPIO operation makes the initial attempt plus exactly 100 retries (101
fopen calls), each retry preceded by a 20000 us sleep, and then returns
the failure code -1 deterministically. -/
theorem C6_gpio_open_retry_budget (op : GpioOp) (gpio : Nat) (val : String)
    (wOk : Bool) (f : Nat → Bool) (hf : ∀ i, f i = false) :
    (linuxspi_gpio_op_wr f wOk op gpio val).result = -1
    ∧ (linuxspi_gpio_op_wr f wOk op gpio val).fopenCalls = 101
    ∧ (linuxspi_gpio_op_wr f wOk op gpio val).events =
        List.replicate 100 (Ev.sleepUs 20000) := by
  have h := open_retry_all_fail f hf 100 0
  simp [linuxspi_gpio_op_wr, h]

/-- C6 witness: the direction operation at pin 25 under an oracle whose
fopen attempts all fail returns -1 after 101 fopen calls and 100 sleeps
of 20000 us. -/
theorem C6_witness :
    (linuxspi_gpio_op_wr allFail true GpioOp.direction 25 "in").result = -1
    ∧ (linuxspi_gpio_op_wr allFail true GpioOp.direction 25 "in").fopenCalls = 101
    ∧ (linuxspi_gpio_op_wr allFail true GpioOp.direction 25 "in").events =
        List.replicate 100 (Ev.sleepUs 20000) :=
  C6_gpio_open_retry_budget GpioOp.direction 25 "in" true allFail (fun _ => rfl)

/-- C7: chip erase for a part with no chip-erase encoding returns -1
with the not-defined diagnostic, without issuing any SPI transfer,
without sleeping and without re-initializing. -/
theorem C7_chip_erase_unsupported (d : Nat) (ir : Int) :
    (linuxspi_chip_erase false d ir).result = -1
    ∧ (linuxspi_chip_erase false d ir).transfers = 0
    ∧ (linuxspi_chip_erase false d ir).unsupportedMsg = true
    ∧ (linuxspi_chip_erase false d ir).slept = none
    ∧ (linuxspi_chip_erase false d ir).reInit = false :=
  ⟨rfl, rfl, rfl, rfl, rfl⟩

/-- C8: every protocol-frame transfer issued through linuxspi_cmd has
length 4, bits-per-word 8 and a 1 us inter-word delay, and its speed
field is the configured clock rate when positive and 400000 when the
rate is unset (zero). -/
theorem C8_spi_transfer_parameters (r : Nat) (kret : Int) :
    (0 < r → (linuxspi_cmd r kret).tr.speed_hz = r)
    ∧ (r = 0 → (linuxspi_cmd r kret).tr.speed_hz = 400000)
    ∧ (linuxspi_cmd r kret).tr.len = 4
    ∧ (linuxspi_cmd r kret).tr.bits_per_word = 8
    ∧ (linuxspi_cmd r kret).tr.delay_usecs = 1 := by
  refine ⟨?_, ?_, rfl, rfl, rfl⟩
  · intro hr
    simp [linuxspi_cmd, linuxspi_spi_duplex, Nat.pos_iff_ne_zero.mp hr]
  · intro hr
    simp [linuxspi_cmd, linuxspi_spi_duplex, hr]

/-- C8 witness: a configured rate of 250000 is used as the speed field,
and an unset (zero) rate falls back to 400000. -/
theorem C8_witness :
    (linuxspi_cmd 250000 4).tr.speed_hz = 250000
    ∧ (linuxspi_cmd 0 4).tr.speed_hz = 400000 :=
  ⟨(C8_spi_transfer_parameters 250000 4).1 (by decide),
   ((C8_spi_transfer_parameters 0 4).2).1 rfl⟩

/-- C9: chip erase for a part with an erase encoding returns 0 after one
SPI transfer and the settling sleep, even when the re-initialization it
invokes fails: the re-enable's result is discarded, never propagated. -/
theorem C9_chip_erase_ignores_reinit_failure (d : Nat) (ir : Int)
    (hir : ir ≠ 0) :
    (linuxspi_chip_erase true d ir).result = 0
    ∧ (linuxspi_chip_erase true d ir).transfers = 1
    ∧ (linuxspi_chip_erase true d ir).slept = some d
    ∧ (linuxspi_chip_erase true d ir).reInit = true :=
  ⟨rfl, rfl, rfl, rfl⟩

/-- C9 witness: with a settling delay of 9000 us and a failed
re-initialization result -1, chip erase still returns 0. -/
theorem C9_witness :
    (-1 : Int) ≠ 0
    ∧ (linuxspi_chip_erase true 9000 (-1)).result = 0 :=
  ⟨by decide, (C9_chip_erase_ignores_reinit_failure 9000 (-1) (by decide)).1⟩

/-- C10: a part with no program-enable encoding makes program_enable
return the hard failure -1 with no transfer, so the retry loop of
initialize stops after exactly one attempt with result -1 and reports
the device as not responding rather than as an unsupported operation. -/
theorem C10_undefined_program_enable (cmd res : Fin 4 → Nat) :
    (linuxspi_program_enable false cmd res).result = -1
    ∧ (linuxspi_program_enable false cmd res).transfers = 0
    ∧ (linuxspi_init false
        (fun _ => (linuxspi_program_enable false cmd res).result)).result = -1
    ∧ (linuxspi_init false
        (fun _ => (linuxspi_program_enable false cmd res).result)).attempts = 1
    ∧ (linuxspi_init false
        (fun _ => (linuxspi_program_enable false cmd res).result)).notResponding
        = true :=
  ⟨rfl, rfl, rfl, rfl, rfl⟩
